import Mathlib

/-!
Verification of the dark-matter detection simulation (XIVIX-Official/dark-matter-detection).

Shallow embedding of the Python source:
- `src/src/detector.py` (Detector, DetectorConfig, event generation, run_simulation),
- `src/src/particle.py` (DetectionEvent, EventCollection),
- `src/src/physics.py` (maxwell_boltzmann_velocity, calculate_nuclear_form_factor,
  apply_detector_response),
- `src/api/routes.py` (the significance computation of calculate_statistics).

Python floats are modelled as rationals wherever the computations are rational
(clipping, thresholds, efficiency comparisons, histogram binning, counting); square
roots appearing only inside comparisons are embedded by the equivalent squared
comparison over ℚ, with the equivalence to `Real.sqrt` proved as a bridging lemma.
Randomness is made explicit: every `np.random.*` draw is a field of a draw record
supplied through an oracle stream `ℕ → Draw`; trigonometric direction sampling
(`arccos`/`sin`/`cos` of uniform draws) is abstracted as the drawn unit-direction
triple, since no claim depends on the direction values. Fallible code (a Python
exception) is modelled with `Option`/`Except`.

The `PhysicsEngine` class and the `Particle`/`ParticleType`/`Event` classes that
`detector.py` imports are referenced by the code and the tests but are not present
under `src/`; they are modelled from the spec, and marked as such in doc comments.
-/

/-- ParticleType: the particle type tags used by `detector.py` and the tests.
Modelled from the spec: the class is imported by `detector.py` from `.particle` but is
not under `src/`; spec §3 fixes the tag set `{dark-matter, background, cosmic-ray,
neutrino}`. -/
inductive ParticleType where
  | dark_matter
  | background
  | cosmic_ray
  | neutrino
deriving DecidableEq, Repr

/-- Particle: the record constructed by `detector.py` (`particle_type`, `energy`,
`momentum`, `position`, `timestamp`, `interaction_type`).
Modelled from the spec: the class is imported by `detector.py` from `.particle` but the
`particle.py` under `src/` defines a different `Particle`; spec §3 gives exactly these
fields. -/
structure Particle where
  particle_type : ParticleType
  energy : ℚ
  momentum : ℚ × ℚ × ℚ
  position : ℚ × ℚ × ℚ
  timestamp : ℚ
  interaction_type : String
deriving DecidableEq, Repr

/-- Event: the detector event record of `detector.py` (`process_event`). Fields are the
ones the source constructs; the `significance` field (computed by the missing
`PhysicsEngine.statistical_significance`) is omitted since no claim concerns it. -/
structure Event where
  event_id : ℕ
  particles : List Particle
  total_energy : ℚ
  timestamp : ℚ
  background_probability : ℚ
deriving DecidableEq, Repr

/-- DetectorConfig, from `src/src/detector.py` (a dataclass of the detector
configuration parameters). -/
structure DetectorConfig where
  detector_type : String
  mass_kg : ℚ
  temperature_mk : ℚ
  energy_threshold_kev : ℚ
  energy_resolution : ℚ
  background_rate_per_kg_day : ℚ
  exposure_time_days : ℚ
deriving DecidableEq, Repr

/-- The dataclass defaults of `DetectorConfig` in `src/src/detector.py`. -/
def defaultDetectorConfig : DetectorConfig :=
  { detector_type := "superfluid_helium"
    mass_kg := 1
    temperature_mk := 15
    energy_threshold_kev := 3
    energy_resolution := 3 / 100
    background_rate_per_kg_day := 1 / 100
    exposure_time_days := 365 }

namespace PhysicsEngine

/-- WIMP_MASS of the physics engine. Modelled from the spec: the `PhysicsEngine` class
used by `detector.py` is not under `src/`; the tests assert `engine.WIMP_MASS == 50.0`
and config has `WIMP_MASS_GEV = 50.0`. -/
def WIMP_MASS : ℚ := 50

/-- Modelled from the spec: `PhysicsEngine.nuclear_recoil_energy` is called by
`detector.py` (with arguments wimp mass, nucleus mass, wimp velocity) and exercised by
the tests, but the `PhysicsEngine` class is not under `src/`. Spec §4.2: reduced mass
μ = m₁m₂/(m₁+m₂) and E_r = 2μ²v²(1−cosθ)/m₂; the three-argument engine version carries
no scattering angle, i.e. the (1−cosθ) factor is taken at cosθ = 0. -/
def nuclear_recoil_energy (wimp_mass nucleus_mass wimp_velocity : ℚ) : ℚ :=
  let mu := wimp_mass * nucleus_mass / (wimp_mass + nucleus_mass)
  2 * mu ^ 2 * wimp_velocity ^ 2 / nucleus_mass

/-- Modelled from the spec: `PhysicsEngine.detector_efficiency` is called by
`detector.py` and exercised by the tests, but the `PhysicsEngine` class is not under
`src/`. Spec §4.3 efficiency curve: 0 below the threshold (3 keV), a linear ramp from 0
to the plateau (0.85, the superfluid-helium `efficiency_plateau`) between threshold and
the mid-energy point (10 keV), and the plateau above. -/
def detector_efficiency (energy : ℚ) : ℚ :=
  if energy < 3 then 0
  else if energy < 10 then 85 / 100 * ((energy - 3) / 7)
  else 85 / 100

end PhysicsEngine

/-- numpy `np.clip(a, a_min, a_max)`, documented as
`np.minimum(a_max, np.maximum(a, a_min))`. -/
def clip (x lo hi : ℚ) : ℚ := min hi (max x lo)

/-- One iteration's random draws of `Detector.generate_background_events`:
the `np.random.exponential(10.0)` energy sample, the unit direction obtained from the
θ/φ draws, the `np.random.choice([BACKGROUND, COSMIC_RAY])` outcome, the uniform
position triple, and the uniform timestamp. -/
structure BgDraw where
  energyExp : ℚ
  dir : ℚ × ℚ × ℚ
  isCosmic : Bool
  pos : ℚ × ℚ × ℚ
  time : ℚ
deriving DecidableEq, Repr

/-- One iteration's random draws of `Detector.generate_dark_matter_events`:
the `np.random.normal(v0, v0/4)` speed sample, the `np.random.random()` uniform used
against the efficiency, the `np.random.normal(1.0, energy_resolution)` smear factor,
the unit direction from the θ/φ draws, the position triple, and the timestamp. -/
structure DmDraw where
  speed : ℚ
  uniform : ℚ
  smear : ℚ
  dir : ℚ × ℚ × ℚ
  pos : ℚ × ℚ × ℚ
  time : ℚ
deriving DecidableEq, Repr

namespace Detector

/-- Detector.generate_background_events from `src/src/detector.py`: for each of
`num_events` iterations, draw an exponential energy, clip it into
`[energy_threshold_kev, 1000]`, draw an isotropic direction, and record a
BACKGROUND/COSMIC_RAY particle (always kept, no filtering). -/
def generate_background_events (cfg : DetectorConfig) (num_events : ℕ)
    (draws : ℕ → BgDraw) : List Particle :=
  (List.range num_events).map fun i =>
    let d := draws i
    let energy := clip d.energyExp cfg.energy_threshold_kev 1000
    { particle_type := if d.isCosmic then ParticleType.cosmic_ray else ParticleType.background
      energy := energy
      momentum := (energy * d.dir.1, energy * d.dir.2.1, energy * d.dir.2.2)
      position := d.pos
      timestamp := d.time
      interaction_type := "background" }

/-- Detector.generate_dark_matter_events from `src/src/detector.py`: for each of
`num_events` iterations, draw a speed, compute the recoil energy, skip the iteration
(`continue`) if the recoil energy is below the threshold or if the uniform draw exceeds
the detector efficiency, otherwise smear the energy and record a DARK_MATTER
particle. -/
def generate_dark_matter_events (cfg : DetectorConfig) (num_events : ℕ)
    (draws : ℕ → DmDraw) : List Particle :=
  (List.range num_events).filterMap fun i =>
    let d := draws i
    let recoil_energy := PhysicsEngine.nuclear_recoil_energy PhysicsEngine.WIMP_MASS 20 d.speed
    if recoil_energy < cfg.energy_threshold_kev then none
    else if d.uniform > PhysicsEngine.detector_efficiency recoil_energy then none
    else
      let measured_energy := recoil_energy * d.smear
      some { particle_type := ParticleType.dark_matter
             energy := measured_energy
             momentum := (measured_energy * d.dir.1, measured_energy * d.dir.2.1,
                          measured_energy * d.dir.2.2)
             position := d.pos
             timestamp := d.time
             interaction_type := "nuclear_recoil" }

/-- Detector.process_event from `src/src/detector.py`: wraps a particle into an Event
with the next sequential id; `background_probability` is
`1.0 - (particle_type == DARK_MATTER)`. -/
def process_event (event_id : ℕ) (p : Particle) : Event :=
  { event_id := event_id
    particles := [p]
    total_energy := p.energy
    timestamp := p.timestamp
    background_probability :=
      if p.particle_type = ParticleType.dark_matter then 0 else 1 }

/-- The `for particle in all_particles: self.process_event(particle)` loop of
`run_simulation`: the event counter is incremented before each id is assigned, so ids
are `counter+1, counter+2, ...`. -/
def processAll (counter : ℕ) : List Particle → List Event
  | [] => []
  | p :: ps => process_event (counter + 1) p :: processAll (counter + 1) ps

/-- Bool test for `e.particles[0].particle_type == ParticleType.DARK_MATTER`
(run_simulation's dark-matter detection count predicate). -/
def eventIsDM (e : Event) : Bool :=
  match e.particles with
  | p :: _ => decide (p.particle_type = ParticleType.dark_matter)
  | [] => false

/-- The `simulation_stats` dictionary built by `Detector.run_simulation`. -/
structure SimulationStats where
  total_events : ℕ
  dark_matter_candidates : ℕ
  background_events : ℕ
  mean_energy : ℚ
  max_energy : ℚ
  min_energy : ℚ
  total_exposure : ℚ
  detector_efficiency : ℚ
deriving DecidableEq, Repr

/-- Detector.run_simulation from `src/src/detector.py`: generate the background and
dark-matter particle lists, shuffle their concatenation (`np.random.shuffle`, modelled
as an arbitrary `shuffle` function that theorems constrain to a permutation), process
every particle into an event, and assemble the `simulation_stats` dictionary. The code
performs no configuration validation and raises no error: the embedding is total. -/
def run_simulation (cfg : DetectorConfig) (background_events dark_matter_events : ℕ)
    (bgDraws : ℕ → BgDraw) (dmDraws : ℕ → DmDraw)
    (shuffle : List Particle → List Particle) : SimulationStats :=
  let bg_particles := generate_background_events cfg background_events bgDraws
  let dm_particles := generate_dark_matter_events cfg dark_matter_events dmDraws
  let all_particles := shuffle (bg_particles ++ dm_particles)
  let events := processAll 0 all_particles
  let dm_detections := events.countP eventIsDM
  let bg_rejections := events.countP fun e => !eventIsDM e
  { total_events := events.length
    dark_matter_candidates := dm_detections
    background_events := bg_rejections
    mean_energy :=
      match events with
      | [] => 0
      | _ :: _ => (events.map Event.total_energy).sum / (events.length : ℚ)
    max_energy :=
      match events.map Event.total_energy with
      | [] => 0
      | e :: es => es.foldl max e
    min_energy :=
      match events.map Event.total_energy with
      | [] => 0
      | e :: es => es.foldl min e
    total_exposure := cfg.exposure_time_days * cfg.mass_kg
    detector_efficiency :=
      if dark_matter_events > 0 then (dm_detections : ℚ) / (dark_matter_events : ℚ)
      else 0 }

end Detector

section DetectorLemmas

open Detector

/-- Processing the particle list preserves its length. -/
theorem processAll_length (c : ℕ) (l : List Particle) :
    (processAll c l).length = l.length := by
  induction l generalizing c with
  | nil => rfl
  | cons p ps ih => simp [processAll, ih]

/-- Counting dark-matter events after processing counts dark-matter particles. -/
theorem processAll_countP_dm (c : ℕ) (l : List Particle) :
    (processAll c l).countP eventIsDM
      = l.countP fun p => decide (p.particle_type = ParticleType.dark_matter) := by
  induction l generalizing c with
  | nil => rfl
  | cons p ps ih =>
    simp only [processAll, List.countP_cons, ih]
    rfl

/-- Counting non-dark-matter events after processing counts non-dark-matter
particles. -/
theorem processAll_countP_not_dm (c : ℕ) (l : List Particle) :
    (processAll c l).countP (fun e => !eventIsDM e)
      = l.countP fun p => !decide (p.particle_type = ParticleType.dark_matter) := by
  induction l generalizing c with
  | nil => rfl
  | cons p ps ih =>
    simp only [processAll, List.countP_cons, ih]
    rfl

/-- Every particle produced by `generate_background_events` is tagged BACKGROUND or
COSMIC_RAY, never DARK_MATTER. -/
theorem generate_background_events_not_dm (cfg : DetectorConfig) (n : ℕ)
    (draws : ℕ → BgDraw) :
    ∀ p ∈ generate_background_events cfg n draws,
      p.particle_type ≠ ParticleType.dark_matter := by
  intro p hp
  rcases List.mem_map.mp hp with ⟨i, -, rfl⟩
  cases h : (draws i).isCosmic <;> simp [h]

/-- Every particle produced by `generate_dark_matter_events` is tagged DARK_MATTER. -/
theorem generate_dark_matter_events_dm (cfg : DetectorConfig) (n : ℕ)
    (draws : ℕ → DmDraw) :
    ∀ p ∈ generate_dark_matter_events cfg n draws,
      p.particle_type = ParticleType.dark_matter := by
  intro p hp
  rcases List.mem_filterMap.mp hp with ⟨i, -, hf⟩
  simp only at hf
  split at hf
  · exact absurd hf (by simp)
  · split at hf
    · exact absurd hf (by simp)
    · cases hf
      rfl

end DetectorLemmas

section RunSimulationClaims

open Detector

/-- The background generator always returns exactly the requested number of
particles. -/
theorem generate_background_events_length (cfg : DetectorConfig) (n : ℕ)
    (draws : ℕ → BgDraw) :
    (generate_background_events cfg n draws).length = n := by
  simp [generate_background_events]

/-- The dark-matter generator returns at most the requested number of particles
(iterations may be skipped by the threshold or efficiency checks). -/
theorem generate_dark_matter_events_length_le (cfg : DetectorConfig) (n : ℕ)
    (draws : ℕ → DmDraw) :
    (generate_dark_matter_events cfg n draws).length ≤ n := by
  simp only [generate_dark_matter_events]
  exact le_trans (List.length_filterMap_le _ _) (le_of_eq (List.length_range n))

/-- Counting a predicate and its negation partitions a list. -/
theorem countP_partition (p : α → Bool) (l : List α) :
    l.countP p + l.countP (fun a => !p a) = l.length := by
  induction l with
  | nil => rfl
  | cons a l ih => cases h : p a <;> simp [List.countP_cons, h, ← ih] <;> omega

/-- C1: for every configuration and requested counts, after `run_simulation(b, s)`
(with the in-place `np.random.shuffle` modelled as any permutation) the recorded
background event count equals `b` exactly, and the recorded dark-matter event count is
at most `s`: signal draws may be rejected by the threshold or efficiency checks, while
background draws are always kept. -/
theorem run_simulation_background_exact_signal_le
    (cfg : DetectorConfig) (b s : ℕ) (bgDraws : ℕ → BgDraw) (dmDraws : ℕ → DmDraw)
    (shuffle : List Particle → List Particle)
    (hshuffle : ∀ l, List.Perm (shuffle l) l) :
    (run_simulation cfg b s bgDraws dmDraws shuffle).background_events = b ∧
    (run_simulation cfg b s bgDraws dmDraws shuffle).dark_matter_candidates ≤ s := by
  have hperm := hshuffle
    (generate_background_events cfg b bgDraws ++ generate_dark_matter_events cfg s dmDraws)
  have hbgAll : ∀ p ∈ generate_background_events cfg b bgDraws,
      (!decide (p.particle_type = ParticleType.dark_matter)) = true := by
    intro p hp
    simpa using generate_background_events_not_dm cfg b bgDraws p hp
  have hbgNone : (generate_background_events cfg b bgDraws).countP
      (fun p => decide (p.particle_type = ParticleType.dark_matter)) = 0 := by
    rw [List.countP_eq_zero]
    intro p hp
    simpa using generate_background_events_not_dm cfg b bgDraws p hp
  have hdmNone : (generate_dark_matter_events cfg s dmDraws).countP
      (fun p => !decide (p.particle_type = ParticleType.dark_matter)) = 0 := by
    rw [List.countP_eq_zero]
    intro p hp
    simp [generate_dark_matter_events_dm cfg s dmDraws p hp]
  constructor
  · simp only [run_simulation]
    rw [processAll_countP_not_dm, hperm.countP_eq, List.countP_append,
      List.countP_eq_length.mpr hbgAll, hdmNone,
      generate_background_events_length]
    omega
  · simp only [run_simulation]
    rw [processAll_countP_dm, hperm.countP_eq, List.countP_append, hbgNone]
    have h1 := List.countP_le_length
      (fun p => decide (p.particle_type = ParticleType.dark_matter))
      (l := generate_dark_matter_events cfg s dmDraws)
    have h2 := generate_dark_matter_events_length_le cfg s dmDraws
    omega

/-- Constant background-draw stream used by the concrete witnesses: an exponential
energy sample of 5 keV, direction (0,0,1), a BACKGROUND type choice, the origin
position, timestamp 0. -/
def bgDrawW : ℕ → BgDraw :=
  fun _ => { energyExp := 5, dir := (0, 0, 1), isCosmic := false, pos := (0, 0, 0), time := 0 }

/-- Constant dark-matter-draw stream used by the concrete witnesses: speed sample 0
(so the recoil energy 0 falls below the 3 keV threshold and the iteration is
skipped), uniform 0, smear 1. -/
def dmDrawW : ℕ → DmDraw :=
  fun _ => { speed := 0, uniform := 0, smear := 1, dir := (0, 0, 1), pos := (0, 0, 0), time := 0 }

/-- The background particle generated from the first `bgDrawW` draw under a
configuration with threshold 3 keV: the exponential sample 5 keV survives clipping into
[3, 1000]. -/
def bgParticleW : Particle :=
  { particle_type := ParticleType.background
    energy := 5
    momentum := (0, 0, 5)
    position := (0, 0, 0)
    timestamp := 0
    interaction_type := "background" }

/-- Witness for C1: a concrete run with 2 requested background events and 1 requested
dark-matter event (identity shuffle) records exactly 2 background events and at most 1
dark-matter candidate. -/
theorem run_simulation_background_exact_signal_le_witness :
    (run_simulation defaultDetectorConfig 2 1 bgDrawW dmDrawW id).background_events = 2 ∧
    (run_simulation defaultDetectorConfig 2 1 bgDrawW dmDrawW id).dark_matter_candidates ≤ 1 :=
  run_simulation_background_exact_signal_le defaultDetectorConfig 2 1 bgDrawW dmDrawW id
    (fun l => List.Perm.refl l)

/-- C4 (amended): `run_simulation` performs no configuration validation and has no
error path (the source defines no `ConfigurationError`); for every configuration —
including unknown detector kinds — and any requested counts it runs to completion and
returns statistics in which the total equals dark-matter candidates plus background
events. -/
theorem run_simulation_total_eq_candidates_add_background
    (cfg : DetectorConfig) (b s : ℕ) (bgDraws : ℕ → BgDraw) (dmDraws : ℕ → DmDraw)
    (shuffle : List Particle → List Particle) :
    (run_simulation cfg b s bgDraws dmDraws shuffle).total_events
      = (run_simulation cfg b s bgDraws dmDraws shuffle).dark_matter_candidates
        + (run_simulation cfg b s bgDraws dmDraws shuffle).background_events := by
  simp only [run_simulation]
  exact (countP_partition eventIsDM _).symm

/-- A configuration whose detector kind is not one of the enumerated detector types. -/
def bogusConfig : DetectorConfig :=
  { defaultDetectorConfig with detector_type := "not_a_detector" }

/-- Evaluation of the background generator on one `bgDrawW` draw under the invalid-kind
configuration: the run happily samples, the 5 keV draw surviving the [3, 1000] clip. -/
theorem generate_background_events_bogus_eval :
    generate_background_events bogusConfig 1 bgDrawW = [bgParticleW] := by
  simp only [generate_background_events, List.range_succ, List.range_zero,
    List.nil_append, List.map_cons, List.map_nil, bgDrawW, bogusConfig,
    defaultDetectorConfig, bgParticleW, clip]
  norm_num

/-- Evaluation of the dark-matter generator on one `dmDrawW` draw under the
invalid-kind configuration: the zero-speed draw gives recoil energy 0, below the 3 keV
threshold, so the iteration is skipped. -/
theorem generate_dark_matter_events_bogus_eval :
    generate_dark_matter_events bogusConfig 1 dmDrawW = [] := by
  simp only [generate_dark_matter_events, List.range_succ, List.range_zero,
    List.nil_append, List.filterMap_cons, List.filterMap_nil, dmDrawW, bogusConfig,
    defaultDetectorConfig, PhysicsEngine.nuclear_recoil_energy, PhysicsEngine.WIMP_MASS]
  norm_num

/-- Counterexample for C4: with an invalid detector kind the claim demands a
`ConfigurationError` before any sampling, and with zero requested events the claimed
alternative is a *populated* collection; instead `run_simulation` completes normally
(the embedding is total — the source has no error path) and returns an empty result for
zero requested events, and it likewise completes normally when sampling does happen
(one background event requested and recorded). -/
theorem run_simulation_invalid_kind_completes :
    (run_simulation bogusConfig 0 0 bgDrawW dmDrawW id).total_events = 0 ∧
    (run_simulation bogusConfig 1 1 bgDrawW dmDrawW id).total_events = 1 := by
  constructor
  · rfl
  · simp only [run_simulation, generate_background_events_bogus_eval,
      generate_dark_matter_events_bogus_eval, List.append_nil, id_eq]
    rfl

/-- C10: every background particle produced by `generate_background_events` carries an
energy clipped into `[energy_threshold_kev, 1000]` keV before being recorded (for any
draw stream, whatever the exponential sample), whenever the configured threshold does
not exceed 1000 keV (so that the clipping bounds form an interval; `np.clip` with
crossed bounds would return the upper bound). -/
theorem generate_background_events_energy_clamped
    (cfg : DetectorConfig) (n : ℕ) (draws : ℕ → BgDraw)
    (hth : cfg.energy_threshold_kev ≤ 1000) :
    ∀ p ∈ generate_background_events cfg n draws,
      cfg.energy_threshold_kev ≤ p.energy ∧ p.energy ≤ 1000 := by
  intro p hp
  rcases List.mem_map.mp hp with ⟨i, -, rfl⟩
  constructor
  · show cfg.energy_threshold_kev
      ≤ min 1000 (max (draws i).energyExp cfg.energy_threshold_kev)
    exact le_min hth (le_max_right _ _)
  · show min 1000 (max (draws i).energyExp cfg.energy_threshold_kev) ≤ 1000
    exact min_le_left _ _

/-- Evaluation of the background generator on one `bgDrawW` draw under the default
configuration. -/
theorem generate_background_events_default_eval :
    generate_background_events defaultDetectorConfig 1 bgDrawW = [bgParticleW] := by
  simp only [generate_background_events, List.range_succ, List.range_zero,
    List.nil_append, List.map_cons, List.map_nil, bgDrawW,
    defaultDetectorConfig, bgParticleW, clip]
  norm_num

/-- Witness for C10: the concrete background particle generated under the default
configuration (threshold 3 keV) has its energy inside [3, 1000]. -/
theorem generate_background_events_energy_clamped_witness :
    defaultDetectorConfig.energy_threshold_kev ≤ bgParticleW.energy ∧
      bgParticleW.energy ≤ 1000 :=
  generate_background_events_energy_clamped defaultDetectorConfig 1 bgDrawW (by decide)
    bgParticleW (by rw [generate_background_events_default_eval]; exact List.mem_singleton_self _)

end RunSimulationClaims

/-- DetectionEvent, from `src/src/particle.py`: a detection event record. The
`timestamp` (a `datetime` in the source) is modelled as rational seconds; the free-form
`metadata` dictionary is omitted (no claim concerns it). -/
structure DetectionEvent where
  event_id : ℕ
  timestamp : ℚ
  energy_deposited : ℚ
  position : ℚ × ℚ × ℚ
  is_signal : Bool
  detector_response : ℚ
deriving DecidableEq, Repr

/-- A binned distribution: `bins` are the edge values (length `nBins + 1`), `counts`
the per-bin tallies, mirroring the `bins`/`counts` (or `times`/`counts`) keys of the
dictionaries the source returns. -/
structure Spectrum where
  bins : List ℚ
  counts : List ℕ
deriving DecidableEq, Repr

/-- numpy `np.histogram(data, bins, range=(lo, hi))`: `bins + 1` equally spaced edges
from `lo` to `hi`; bin `i` counts the data in `[edge i, edge (i+1))`, the last bin
being closed on the right. Returns `(counts, edges)` as numpy does. -/
def np_histogram (data : List ℚ) (bins : ℕ) (lo hi : ℚ) : List ℕ × List ℚ :=
  let edge : ℕ → ℚ := fun i => lo + (hi - lo) * i / bins
  let counts := (List.range bins).map fun i =>
    if i + 1 = bins then data.countP fun x => decide (edge i ≤ x) && decide (x ≤ hi)
    else data.countP fun x => decide (edge i ≤ x) && decide (x < edge (i + 1))
  let edges := (List.range (bins + 1)).map edge
  (counts, edges)

/-- numpy `np.histogram(data, bins)` without an explicit range: the range defaults to
`(data.min, data.max)`, to `(0, 1)` for empty data, and to `(min - 0.5, max + 0.5)`
when all values coincide. -/
def np_histogram_auto (data : List ℚ) (bins : ℕ) : List ℕ × List ℚ :=
  match data with
  | [] => np_histogram data bins 0 1
  | x :: xs =>
    let lo := xs.foldl min x
    let hi := xs.foldl max x
    if lo = hi then np_histogram data bins (lo - 1 / 2) (hi + 1 / 2)
    else np_histogram data bins lo hi

namespace EventCollection

/-- The statistics dictionary of `EventCollection.get_statistics` in
`src/src/particle.py`. -/
structure ECStats where
  total_events : ℕ
  dark_matter_candidates : ℕ
  background_events : ℕ
  mean_energy : ℚ
  max_energy : ℚ
  min_energy : ℚ
deriving DecidableEq, Repr

/-- EventCollection.get_statistics from `src/src/particle.py`: collects the
`detector_response` energies and reports counts, mean, max and min. On an empty
collection `np.mean` of the empty array yields NaN (a warning, not an exception), and
then `float(np.max(energies))` raises
`ValueError: zero-size array to reduction operation maximum which has no identity`; the
raise is modelled as `Except.error` with numpy's message. -/
def get_statistics (events : List DetectionEvent) : Except String ECStats :=
  let energies := events.map DetectionEvent.detector_response
  let signal_events := events.filter fun e => e.is_signal
  match energies with
  | [] => Except.error "zero-size array to reduction operation maximum which has no identity"
  | e :: es =>
    Except.ok
      { total_events := events.length
        dark_matter_candidates := signal_events.length
        background_events := events.length - signal_events.length
        mean_energy := energies.sum / (energies.length : ℚ)
        max_energy := es.foldl max e
        min_energy := es.foldl min e }

/-- EventCollection.get_energy_spectrum from `src/src/particle.py`: histogram of the
`detector_response` energies with `bins` bins (the source default is 100) and no
explicit range — on an empty collection numpy falls back to the (0, 1) range and
returns `bins` zero counts, not empty arrays. -/
def get_energy_spectrum (events : List DetectionEvent) (bins : ℕ) : Spectrum :=
  let energies := events.map DetectionEvent.detector_response
  let h := np_histogram_auto energies bins
  { bins := h.2, counts := h.1 }

/-- EventCollection.get_temporal_distribution from `src/src/particle.py`: histogram of
the event times relative to the first event's timestamp, with `bins` bins (the source
default is 50). The list comprehension indexes `self.events[0]` only inside its body,
so an empty collection produces an empty time list (no IndexError), which numpy then
histograms as zero-filled bins over (0, 1). -/
def get_temporal_distribution (events : List DetectionEvent) (bins : ℕ) : Spectrum :=
  let times :=
    match events with
    | [] => []
    | e0 :: _ => events.map fun e => e.timestamp - e0.timestamp
  let h := np_histogram_auto times bins
  { bins := h.2, counts := h.1 }

end EventCollection

namespace Detector

/-- Detector.get_energy_spectrum from `src/src/detector.py`: returns empty `bins` and
`counts` lists when there are no events, otherwise a 50-bin histogram over
`(0, max(energies))`. (The source dictionary also echoes the raw `energies` list,
which the embedding drops.) -/
def get_energy_spectrum (events : List Event) : Spectrum :=
  match events with
  | [] => { bins := [], counts := [] }
  | e0 :: rest =>
    let energies := (e0 :: rest).map Event.total_energy
    let mx := (rest.map Event.total_energy).foldl max e0.total_energy
    let h := np_histogram energies 50 0 mx
    { bins := h.2, counts := h.1 }

/-- Detector.get_temporal_distribution from `src/src/detector.py`: returns empty
`times` and `counts` lists when there are no events, otherwise a 30-bin histogram of
the timestamps (auto range). (The nonempty-case dictionary also carries `total_time`,
which the embedding drops; the empty-case dictionary does not have that key.) -/
def get_temporal_distribution (events : List Event) : Spectrum :=
  match events with
  | [] => { bins := [], counts := [] }
  | _ :: _ =>
    let timestamps := events.map Event.timestamp
    let h := np_histogram_auto timestamps 30
    { bins := h.2, counts := h.1 }

end Detector

section EmptyCollectionClaims

/-- C5: `EventCollection.get_statistics` on an empty collection does not report zeros —
it fails (numpy's `np.max` on a zero-size array raises `ValueError`), contradicting the
claim that statistics on an empty collection never throws. Only the separate
`Detector.run_simulation` statistics path guards the empty case. -/
theorem get_statistics_empty_raises :
    EventCollection.get_statistics []
      = Except.error "zero-size array to reduction operation maximum which has no identity" :=
  rfl

/-- Counterexample for C8: `EventCollection.get_energy_spectrum` on an empty collection
does not return empty arrays — numpy histograms the empty data over the default (0, 1)
range, producing 100 zero-filled count bins. -/
theorem get_energy_spectrum_empty_counts_ne_nil :
    (EventCollection.get_energy_spectrum [] 100).counts ≠ [] := by
  simp only [EventCollection.get_energy_spectrum, np_histogram_auto, np_histogram,
    List.map_nil, List.countP_nil, ite_self]
  simp

/-- C8 (amended): the Detector-level spectra return empty arrays on an empty run, while
the EventCollection-level spectra on an empty collection return numpy's default
zero-filled histograms (all counts zero over the (0, 1) range, with `bins + 1`
edges) without error. -/
theorem empty_collection_spectra :
    Detector.get_energy_spectrum [] = { bins := [], counts := [] } ∧
    Detector.get_temporal_distribution [] = { bins := [], counts := [] } ∧
    (EventCollection.get_energy_spectrum [] 100).counts = List.replicate 100 0 ∧
    (EventCollection.get_energy_spectrum [] 100).bins.length = 101 ∧
    (EventCollection.get_temporal_distribution [] 50).counts = List.replicate 50 0 := by
  refine ⟨rfl, rfl, ?_, ?_, ?_⟩
  · simp only [EventCollection.get_energy_spectrum, np_histogram_auto, np_histogram,
      List.map_nil, List.countP_nil, ite_self]
    simp [List.map_const', List.eq_replicate_iff]
  · simp [EventCollection.get_energy_spectrum, np_histogram_auto, np_histogram]
  · simp only [EventCollection.get_temporal_distribution, np_histogram_auto, np_histogram,
      List.map_nil, List.countP_nil, ite_self]
    simp [List.map_const', List.eq_replicate_iff]

end EmptyCollectionClaims

/-- The acceptance test of the rejection loop in `maxwell_boltzmann_velocity`
(`src/src/physics.py`): the source computes `v_mag = np.sqrt(np.sum(v**2))` and accepts
when `v_mag < v_esc`. Over ℚ the test is embedded as the equivalent condition for a
nonnegative radicand, `0 < v_esc ∧ vx² + vy² + vz² < v_esc²`; the equivalence with the
source's square-root comparison is proved in `below_escape_iff`. -/
def below_escape (v : ℚ × ℚ × ℚ) (v_esc : ℚ) : Bool :=
  decide (0 < v_esc) && decide (v.1 ^ 2 + v.2.1 ^ 2 + v.2.2 ^ 2 < v_esc ^ 2)

/-- The `while True` rejection loop of `maxwell_boltzmann_velocity`, consuming the
normal-component draws from attempt index `i` and observed to depth `fuel`: `none`
means the loop is still running after `fuel` draws (the source loop has no retry
bound of its own). -/
def mb_loop (v_esc : ℚ) (draws : ℕ → ℚ × ℚ × ℚ) : ℕ → ℕ → Option (ℚ × ℚ × ℚ)
  | _, 0 => none
  | i, fuel + 1 =>
    let v := draws i
    if below_escape v v_esc then some v else mb_loop v_esc draws (i + 1) fuel

/-- maxwell_boltzmann_velocity from `src/src/physics.py`: repeatedly draw three
independent normal(0, v_0) components (the draw stream supplies each attempt's triple)
and return the first triple whose magnitude is below the escape velocity. `v_0` only
parameterizes the distribution the oracle draws from; it does not enter the acceptance
check, exactly as in the source. -/
def maxwell_boltzmann_velocity (v_0 v_esc : ℚ) (draws : ℕ → ℚ × ℚ × ℚ) (fuel : ℕ) :
    Option (ℚ × ℚ × ℚ) :=
  mb_loop v_esc draws 0 fuel

/-- The ℚ-level acceptance test agrees with the source's `sqrt (Σ vᵢ²) < v_esc`. -/
theorem below_escape_iff (v : ℚ × ℚ × ℚ) (e : ℚ) :
    below_escape v e = true
      ↔ Real.sqrt ((v.1 : ℝ) ^ 2 + (v.2.1 : ℝ) ^ 2 + (v.2.2 : ℝ) ^ 2) < (e : ℝ) := by
  unfold below_escape
  rw [Bool.and_eq_true, decide_eq_true_iff, decide_eq_true_iff]
  constructor
  · rintro ⟨he, hs⟩
    have he' : (0 : ℝ) < (e : ℝ) := by exact_mod_cast he
    rw [Real.sqrt_lt' he']
    exact_mod_cast hs
  · intro h
    have he' : (0 : ℝ) < (e : ℝ) := lt_of_le_of_lt (Real.sqrt_nonneg _) h
    have hs := (Real.sqrt_lt' he').mp h
    exact ⟨by exact_mod_cast he', by exact_mod_cast hs⟩

/-- Whatever the loop returns was accepted by the escape-velocity test. -/
theorem mb_loop_some_below (v_esc : ℚ) (draws : ℕ → ℚ × ℚ × ℚ) :
    ∀ fuel i v, mb_loop v_esc draws i fuel = some v → below_escape v v_esc = true := by
  intro fuel
  induction fuel with
  | zero =>
    intro i v h
    exact absurd h (by simp [mb_loop])
  | succ n ih =>
    intro i v h
    simp only [mb_loop] at h
    split at h
    · cases h
      assumption
    · exact ih (i + 1) v h

/-- C6: every 3-vector returned by the Maxwell–Boltzmann sampler has Euclidean norm
strictly below the escape velocity, for every draw stream and every number of
attempts — returned draws are exactly the ones the rejection test accepted. -/
theorem maxwell_boltzmann_velocity_below_escape
    (v_0 v_esc : ℚ) (draws : ℕ → ℚ × ℚ × ℚ) (fuel : ℕ) (v : ℚ × ℚ × ℚ)
    (h : maxwell_boltzmann_velocity v_0 v_esc draws fuel = some v) :
    Real.sqrt ((v.1 : ℝ) ^ 2 + (v.2.1 : ℝ) ^ 2 + (v.2.2 : ℝ) ^ 2) < (v_esc : ℝ) :=
  (below_escape_iff v v_esc).mp (mb_loop_some_below v_esc draws fuel 0 v h)

/-- Witness for C6: with escape velocity 1 and a first draw (0,0,0), the sampler
returns (0,0,0), whose norm 0 is below 1. -/
theorem maxwell_boltzmann_velocity_below_escape_witness :
    Real.sqrt (((0 : ℚ) : ℝ) ^ 2 + ((0 : ℚ) : ℝ) ^ 2 + ((0 : ℚ) : ℝ) ^ 2) < ((1 : ℚ) : ℝ) :=
  maxwell_boltzmann_velocity_below_escape 1 1 (fun _ => (0, 0, 0)) 1 (0, 0, 0)
    (by norm_num [maxwell_boltzmann_velocity, mb_loop, below_escape])

/-- The source loop never returns when every draw fails the escape test. -/
theorem mb_loop_none_of_rejected (v_esc : ℚ) (draws : ℕ → ℚ × ℚ × ℚ)
    (h : ∀ n, below_escape (draws n) v_esc = false) :
    ∀ fuel i, mb_loop v_esc draws i fuel = none := by
  intro fuel
  induction fuel with
  | zero => intro i; rfl
  | succ n ih =>
    intro i
    simp only [mb_loop, h i, Bool.false_eq_true, if_false]
    exact ih (i + 1)

/-- The proposition that the rejection loop is still running after every number of
retries: the source's `while True` has neither produced a sample nor raised anything. -/
def mb_rejects_forever (v_0 v_esc : ℚ) (draws : ℕ → ℚ × ℚ × ℚ) : Prop :=
  ∀ fuel, maxwell_boltzmann_velocity v_0 v_esc draws fuel = none

/-- Counterexample for C7: at the pathological input vEscape = 0 (which makes the
acceptance test unsatisfiable, every magnitude being nonnegative) with all-zero normal
draws, the claim demands that a bounded retry budget be exhausted and a `SamplingError`
raised; instead the source's `while True` loop never terminates — after any number of
retries it has produced nothing, and the source defines no `SamplingError` (nor any
retry cap) at all. -/
theorem maxwell_boltzmann_velocity_diverges :
    mb_rejects_forever 1 0 (fun _ => (0, 0, 0)) :=
  fun fuel =>
    mb_loop_none_of_rejected 0 (fun _ => (0, 0, 0))
      (fun _ => by simp [below_escape]) fuel 0

/-- C7 (amended): the rejection loop of `maxwell_boltzmann_velocity` has no retry cap
and no `SamplingError` error path; whenever every draw is rejected (e.g. for
vEscape ≤ 0), the loop is still running — returning nothing and raising nothing —
after any number of retries. -/
theorem maxwell_boltzmann_velocity_no_retry_cap
    (v_0 v_esc : ℚ) (draws : ℕ → ℚ × ℚ × ℚ)
    (h : ∀ n, below_escape (draws n) v_esc = false) (fuel : ℕ) :
    maxwell_boltzmann_velocity v_0 v_esc draws fuel = none :=
  mb_loop_none_of_rejected v_esc draws h fuel 0

/-- Witness for C7 (amended): with escape velocity 0 and all-zero draws, after 10000
retries the sampler still has not returned. -/
theorem maxwell_boltzmann_velocity_no_retry_cap_witness :
    maxwell_boltzmann_velocity 1 0 (fun _ => (0, 0, 0)) 10000 = none :=
  maxwell_boltzmann_velocity_no_retry_cap 1 0 (fun _ => (0, 0, 0))
    (fun _ => by simp [below_escape]) 10000

/-- apply_detector_response from `src/src/physics.py`: `u` is the
`np.random.random()` draw tested against the efficiency, and `z` the standard-normal
draw behind the Gaussian smearing (`np.random.normal(energy, sigma) = energy + sigma·z`
with `sigma = energy * resolution`); the result is clamped to be nonnegative with
`max(0, measured_energy)`. -/
def apply_detector_response (energy resolution efficiency : ℚ) (u z : ℚ) : Option ℚ :=
  if u > efficiency then none
  else
    let sigma := energy * resolution
    let measured_energy := energy + sigma * z
    some (max 0 measured_energy)

/-- C9: `apply_detector_response` returns NotDetected (`none`) exactly when the uniform
draw exceeds the efficiency; otherwise it returns the Gaussian-smeared energy — mean
`energy`, standard deviation `energy * resolution` via the standard-normal draw `z` —
clamped so that every returned energy is nonnegative. -/
theorem apply_detector_response_spec (energy resolution efficiency u z : ℚ) :
    (apply_detector_response energy resolution efficiency u z = none ↔ u > efficiency) ∧
    (u ≤ efficiency →
      apply_detector_response energy resolution efficiency u z
        = some (max 0 (energy + energy * resolution * z))) ∧
    (∀ x, apply_detector_response energy resolution efficiency u z = some x → 0 ≤ x) := by
  refine ⟨⟨fun h => ?_, fun h => by simp [apply_detector_response, h]⟩, fun h => ?_, fun x h => ?_⟩
  · by_contra hc
    simp [apply_detector_response, hc] at h
  · have hc : ¬ u > efficiency := not_lt.mpr h
    simp [apply_detector_response, hc]
  · by_cases hc : u > efficiency
    · simp [apply_detector_response, hc] at h
    · simp only [apply_detector_response, hc, if_false] at h
      rw [Option.some_inj] at h
      exact h ▸ le_max_left 0 _

/-- Witness for C9: a detected event (uniform draw 0 ≤ efficiency 1) with true energy
2 keV, resolution 1/2 and standard-normal draw 1 is smeared to 2 + 2·(1/2)·1 = 3 keV. -/
theorem apply_detector_response_spec_witness :
    apply_detector_response 2 (1 / 2) 1 0 1 = some (max 0 (2 + 2 * (1 / 2) * 1)) :=
  (apply_detector_response_spec 2 (1 / 2) 1 0 1).2.1 (by norm_num)

/-- calculate_nuclear_form_factor from `src/src/physics.py` (Helm approximation):
nuclear radius `R = sqrt(R1² − 5s²)` with `R1 = 1.2·A^(1/3)` and surface thickness
`s = 0.9` fm, then `j1 = sin(qR)/qR² − cos(qR)/qR` and
`F = 3·j1·exp(−(qs)²/2)`. The two divisions share the denominator `qR` and are
unguarded in the source: when `qR = 0` the code divides by zero — a
`ZeroDivisionError` under numba's default python error model (NaN/Inf under numpy
semantics) — which the embedding models as `none`. -/
noncomputable def calculate_nuclear_form_factor (q A : ℝ) : Option ℝ :=
  let R1 := 1.2 * A ^ ((1 : ℝ) / 3)
  let s := (0.9 : ℝ)
  let R := Real.sqrt (R1 ^ 2 - 5 * s ^ 2)
  let qR := q * R
  let qs := q * s
  if qR = 0 then none
  else
    let j1 := Real.sin qR / qR ^ 2 - Real.cos qR / qR
    some (3 * j1 * Real.exp (-0.5 * qs ^ 2))

/-- C3 failing input: at momentum transfer `q = 0` (mass number 73, inside the claimed
domain) the form-factor code evaluates `sin(qR)/qR² − cos(qR)/qR` with `qR = 0` — a
division by zero, not the explicitly defined `qR → 0` limit in `[0, 1]` the claim
requires. -/
theorem calculate_nuclear_form_factor_zero_q_divzero :
    calculate_nuclear_form_factor 0 73 = none := by
  simp [calculate_nuclear_form_factor]

/-- The significance computation of `calculate_statistics` in `src/api/routes.py`:
with `observed_signal` the dark-matter candidate count and `expected_background` the
background event count, the code computes
`(observed_signal - expected_background) / np.sqrt(expected_background)` when
`expected_background > 0`, and `0` otherwise. -/
noncomputable def significanceRoute (signal_events background_events : ℕ) : ℝ :=
  if 0 < background_events then
    ((signal_events : ℝ) - (background_events : ℝ)) / Real.sqrt (background_events : ℝ)
  else 0

/-- The significance the spec describes, written from the spec's words for the
refinement comparison: `signalCount / sqrt(signalCount + backgroundCount)` when the
denominator is nonzero, `0` when both counts are zero, `+∞` when the background count
is zero and the signal count positive. -/
noncomputable def significanceSpec (signalCount backgroundCount : ℕ) : EReal :=
  if signalCount = 0 ∧ backgroundCount = 0 then 0
  else if backgroundCount = 0 then ⊤
  else (((signalCount : ℝ) / Real.sqrt ((signalCount : ℝ) + (backgroundCount : ℝ))) : ℝ)

/-- Counterexample for C2: at signal 1, background 0 the code computes 0 while the
claim demands +∞; and at signal 3, background 1 the code computes (3 − 1)/√1 = 2 while
the claim's formula gives 3/√(3+1) = 3/2. -/
theorem significanceRoute_ne_significanceSpec :
    significanceRoute 1 0 = 0 ∧ significanceSpec 1 0 = ⊤ ∧ ((0 : ℝ) : EReal) ≠ ⊤ ∧
    significanceRoute 3 1 = 2 ∧ significanceSpec 3 1 = ((3 / 2 : ℝ) : EReal) ∧
    ((3 / 2 : ℝ) : EReal) ≠ ((2 : ℝ) : EReal) := by
  have hsqrt4 : Real.sqrt (4 : ℝ) = 2 := by
    rw [show (4 : ℝ) = 2 ^ 2 by norm_num]
    exact Real.sqrt_sq (by norm_num)
  refine ⟨by simp [significanceRoute], by simp [significanceSpec], EReal.coe_ne_top 0,
    ?_, ?_, ?_⟩
  · simp [significanceRoute, Real.sqrt_one]
    norm_num
  · simp only [significanceSpec]
    norm_num [hsqrt4]
  · rw [ne_eq, EReal.coe_eq_coe_iff]
    norm_num

/-- C2 (amended): the API significance equals
`(signalCount − backgroundCount)/sqrt(backgroundCount)` when the background count is
positive, and equals 0 whenever the background count is zero — including 0, not +∞,
for positive signal; in particular `significance(k, k) = 0` for every `k` (not
`k/sqrt(2k)`). -/
theorem significanceRoute_formula (s b : ℕ) :
    (b = 0 → significanceRoute s b = 0) ∧
    (0 < b → significanceRoute s b = ((s : ℝ) - (b : ℝ)) / Real.sqrt (b : ℝ)) ∧
    significanceRoute s s = 0 := by
  refine ⟨fun h => by simp [significanceRoute, h],
    fun h => by simp [significanceRoute, h], ?_⟩
  by_cases hs : 0 < s
  · simp [significanceRoute, hs]
  · simp [significanceRoute, hs]

/-- Witness for C2 (amended): significance(5, 0) = 0 (zero background, positive
signal) and significance(5, 5) = 0. -/
theorem significanceRoute_formula_witness :
    significanceRoute 5 0 = 0 ∧ significanceRoute 5 5 = 0 :=
  ⟨(significanceRoute_formula 5 0).1 rfl, (significanceRoute_formula 5 5).2.2⟩
